import Mathlib

/-!
Shallow embedding of the trading-bot execution pipeline:
`services/risk.py` (position_size), `services/execution.py`
(OrderResult, PaperBroker, AlpacaBroker), `services/alpaca_client.py`
(AlpacaClient.submit_bracket) and `run_worker.py` (throttle, the safe
accessors and the once() iteration).

Conventions of the embedding:
* Python floats are modelled as rationals (ℚ); `None` as `Option`.
* The Python dict used as the paper ledger is modelled as a total function
  `String → ℚ`, because every access in the source goes through
  `.get(symbol, 0.0)`, so an absent key is observationally the value 0.
* Attribute lookup on the broker singleton is modelled by the list of
  attribute names each class defines; `hasattr` is membership in that list
  and calling a missing attribute raises AttributeError, modelled as the
  absent branch of an `if`.
* A Python function that can raise, return locally, or perform a network
  call is modelled with an explicit outcome type whose constructors
  separate those observable behaviours.
-/

namespace TradingBot

/-- Embedding of the dataclass `services/execution.py::OrderResult`.
The Python fields `filled_qty` and `avg_price` hold decimal strings
(`str(q)`, `str(price or 0.0)`); they are modelled by the numeric values
those strings render. -/
structure OrderResult where
  ok : Bool
  id : Option String := none
  status : Option String := none
  filled_qty : Option ℚ := none
  avg_price : Option ℚ := none
  error : Option String := none
deriving DecidableEq, Repr

/-- Embedding of `services/risk.py::position_size`. `atr`/`price` are
`Option ℚ` so that the `is None` guards are expressible; the module-level
env values `ATR_STOP_MULT`/`ATR_TAKE_MULT` are passed explicitly
(their defaults in the source are 1.0 and 2.0). The Lean function is
total, mirroring that the Python function never raises. -/
def position_size (equity : ℚ) (atr price : Option ℚ) (risk_pct : ℚ)
    (atr_stop_mult atr_take_mult : ℚ) : ℤ × ℚ × ℚ :=
  match atr, price with
  | none, _ => (0, 0, 0)
  | _, none => (0, 0, 0)
  | some a, some p =>
    if a ≤ 0 ∨ p ≤ 0 ∨ equity ≤ 0 ∨ risk_pct ≤ 0 then (0, 0, 0)
    else
      let risk_amount := equity * risk_pct
      let per_share_risk := if 0 < a then a else p * (1 / 100)
      let qty : ℤ := max 0 ⌊risk_amount / per_share_risk⌋
      let stop := max (p - atr_stop_mult * a) 0
      let take := p + atr_take_mult * a
      (qty, stop, take)

/-- Claim C6: the position sizer fails soft to `(0, 0, 0)` (and never raises,
being a total function) whenever atr or price is None or any of atr,
price, equity, risk_pct is nonpositive; otherwise it returns
`qty = max 0 ⌊equity*risk_pct/atr⌋`, `stop = max (price - stop_mult*atr) 0`
and `take = price + take_mult*atr`; with the default multipliers (1, 2)
the inputs equity=10000, atr=2, price=100, risk_pct=0.01 yield qty=50,
stop=98, take=104. -/
theorem C6_position_size (equity risk_pct sm tm : ℚ) (atr price : Option ℚ) :
    (atr = none → position_size equity atr price risk_pct sm tm = (0, 0, 0))
    ∧ (price = none → position_size equity atr price risk_pct sm tm = (0, 0, 0))
    ∧ (∀ a p : ℚ, atr = some a → price = some p →
        (a ≤ 0 ∨ p ≤ 0 ∨ equity ≤ 0 ∨ risk_pct ≤ 0) →
        position_size equity atr price risk_pct sm tm = (0, 0, 0))
    ∧ (∀ a p : ℚ, atr = some a → price = some p →
        0 < a → 0 < p → 0 < equity → 0 < risk_pct →
        position_size equity atr price risk_pct sm tm =
          (max 0 ⌊equity * risk_pct / a⌋, max (p - sm * a) 0, p + tm * a))
    ∧ position_size 10000 (some 2) (some 100) (1 / 100) 1 2 = (50, 98, 104) := by
  refine ⟨?_, ?_, ?_, ?_, by norm_num [position_size]⟩
  · rintro rfl; cases price <;> rfl
  · rintro rfl; cases atr <;> rfl
  · rintro a p rfl rfl h
    simp only [position_size, if_pos h]
  · rintro a p rfl rfl ha hp he hr
    have hcond : ¬(a ≤ 0 ∨ p ≤ 0 ∨ equity ≤ 0 ∨ risk_pct ≤ 0) := by
      push_neg; exact ⟨ha, hp, he, hr⟩
    simp only [position_size, if_neg hcond, if_pos ha]

/-- Witness for C6 at concrete inputs: a None atr fails soft, and the
worked example from the spec evaluates as claimed. -/
theorem C6_position_size_witness :
    position_size 10000 none (some 100) (1 / 100) 1 2 = (0, 0, 0)
    ∧ position_size 10000 (some 2) (some 100) (1 / 100) 1 2 = (50, 98, 104) :=
  ⟨(C6_position_size 10000 (1 / 100) 1 2 none (some 100)).1 rfl,
   (C6_position_size 10000 (1 / 100) 1 2 (some 2) (some 100)).2.2.2.2⟩

/-- Python round() with no digits argument: round half to even, as used by
`round(qty)` in the live broker and (with scaling) `round(x, 2)` in the
bracket client. -/
def round_half_even (q : ℚ) : ℤ :=
  let n := ⌊q⌋
  let frac := q - n
  if frac < 1 / 2 then n
  else if 1 / 2 < frac then n + 1
  else if n % 2 = 0 then n else n + 1

/-- Python round(x, 2): round to 2 decimal places, half to even. -/
def round2 (q : ℚ) : ℚ := (round_half_even (q * 100) : ℚ) / 100

theorem round_half_even_intCast (n : ℤ) : round_half_even (n : ℚ) = n := by
  unfold round_half_even
  rw [Int.floor_intCast]
  norm_num

theorem round2_eq (q : ℚ) (n : ℤ) (h : q * 100 = (n : ℚ)) :
    round2 q = (n : ℚ) / 100 := by
  unfold round2
  rw [h, round_half_even_intCast]

/-- The ValueError exceptions `AlpacaClient.submit_bracket` can raise
before any network call; the ordering constructors carry the two prices
interpolated into the message text. -/
inductive BracketError
  | missingParams
  | buyOrdering (take_profit stop_loss : ℚ)
  | sellOrdering (take_profit stop_loss : ℚ)
deriving DecidableEq, Repr

/-- The JSON body `submit_bracket` posts to `/v2/orders`; `order_type`
is the "type" field, `take_profit_limit_price` the nested
`take_profit.limit_price`, `stop_loss_stop_price` the nested
`stop_loss.stop_price`. -/
structure BracketPayload where
  symbol : String
  qty : ℤ
  side : String
  order_type : String
  time_in_force : String
  order_class : String
  take_profit_limit_price : ℚ
  stop_loss_stop_price : ℚ
deriving DecidableEq, Repr

/-- Observable behaviour of one `submit_bracket` call: it raises a
ValueError, or it reaches the network call with a given payload. The
constructor `localResult` covers the third behaviour a Python method
could exhibit — returning an `OrderResult` value without touching the
network. The source has no such return path, so `submit_bracket` never
produces it; it is present so that statements about that behaviour are
expressible. -/
inductive BracketOutcome
  | raised (e : BracketError)
  | posted (p : BracketPayload)
  | localResult (r : OrderResult)
deriving DecidableEq, Repr

/-- Python str.upper(), used on symbols before building payloads;
defined over the character data so it evaluates on concrete strings. -/
def py_upper (s : String) : String := ⟨s.data.map Char.toUpper⟩

/-- Rounding, ordering validation and payload construction: the tail of
`AlpacaClient.submit_bracket` (source lines 180-215). The source raises
when `not (take_profit > stop_loss)` (buy) respectively
`not (take_profit < stop_loss)` (sell); here the condition is stated
positively with the branches swapped. -/
def submit_bracket_validated (symbol : String) (qty : ℤ) (side : String)
    (tp0 sl0 : ℚ) (time_in_force order_type : String) : BracketOutcome :=
  let take_profit_price := round2 tp0
  let stop_loss_price := round2 sl0
  if side = "buy" then
    if take_profit_price > stop_loss_price then
      .posted ⟨py_upper symbol, qty, side, order_type, time_in_force, "bracket",
        take_profit_price, stop_loss_price⟩
    else .raised (.buyOrdering take_profit_price stop_loss_price)
  else
    if take_profit_price < stop_loss_price then
      .posted ⟨py_upper symbol, qty, side, order_type, time_in_force, "bracket",
        take_profit_price, stop_loss_price⟩
    else .raised (.sellOrdering take_profit_price stop_loss_price)

/-- Embedding of `services/alpaca_client.py::AlpacaClient.submit_bracket`
up to its network call `self._post("orders", json=payload)`. When either
direct price is missing, both prices are derived from
`entry_price`/`tp_pct`/`sl_pct` (raising a ValueError when those are
missing too); then both prices are rounded and validated. -/
def submit_bracket (symbol : String) (qty : ℤ) (side : String)
    (entry_price take_profit_price stop_loss_price tp_pct sl_pct : Option ℚ)
    (time_in_force order_type : String) : BracketOutcome :=
  match take_profit_price, stop_loss_price with
  | some tp, some sl =>
    submit_bracket_validated symbol qty side tp sl time_in_force order_type
  | _, _ =>
    match entry_price, tp_pct, sl_pct with
    | some entry, some tpp, some slp =>
      if side = "buy" then
        submit_bracket_validated symbol qty side
          (entry * (1 + tpp)) (entry * (1 - slp)) time_in_force order_type
      else
        submit_bracket_validated symbol qty side
          (entry * (1 - tpp)) (entry * (1 + slp)) time_in_force order_type
    | _, _, _ => .raised .missingParams

theorem submit_bracket_validated_buy_posted (symbol : String) (qty : ℤ)
    (tp0 sl0 : ℚ) (tif otype : String) (h : round2 tp0 > round2 sl0) :
    submit_bracket_validated symbol qty "buy" tp0 sl0 tif otype
      = .posted ⟨py_upper symbol, qty, "buy", otype, tif, "bracket",
          round2 tp0, round2 sl0⟩ := by
  unfold submit_bracket_validated
  rw [if_pos rfl, if_pos h]

theorem submit_bracket_validated_buy_raised (symbol : String) (qty : ℤ)
    (tp0 sl0 : ℚ) (tif otype : String) (h : ¬ round2 tp0 > round2 sl0) :
    submit_bracket_validated symbol qty "buy" tp0 sl0 tif otype
      = .raised (.buyOrdering (round2 tp0) (round2 sl0)) := by
  unfold submit_bracket_validated
  rw [if_pos rfl, if_neg h]

theorem submit_bracket_validated_sell_posted (symbol : String) (qty : ℤ)
    (tp0 sl0 : ℚ) (tif otype : String) (h : round2 tp0 < round2 sl0) :
    submit_bracket_validated symbol qty "sell" tp0 sl0 tif otype
      = .posted ⟨py_upper symbol, qty, "sell", otype, tif, "bracket",
          round2 tp0, round2 sl0⟩ := by
  unfold submit_bracket_validated
  rw [if_neg (by decide : ¬("sell" : String) = "buy"), if_pos h]

theorem submit_bracket_validated_sell_raised (symbol : String) (qty : ℤ)
    (tp0 sl0 : ℚ) (tif otype : String) (h : ¬ round2 tp0 < round2 sl0) :
    submit_bracket_validated symbol qty "sell" tp0 sl0 tif otype
      = .raised (.sellOrdering (round2 tp0) (round2 sl0)) := by
  unfold submit_bracket_validated
  rw [if_neg (by decide : ¬("sell" : String) = "buy"), if_neg h]

theorem submit_bracket_derive_buy (symbol : String) (qty : ℤ)
    (entry tpp slp : ℚ) (tif otype : String) :
    submit_bracket symbol qty "buy" (some entry) none none (some tpp) (some slp) tif otype
      = submit_bracket_validated symbol qty "buy"
          (entry * (1 + tpp)) (entry * (1 - slp)) tif otype := by
  show (if ("buy" : String) = "buy" then
      submit_bracket_validated symbol qty "buy"
        (entry * (1 + tpp)) (entry * (1 - slp)) tif otype
    else
      submit_bracket_validated symbol qty "buy"
        (entry * (1 - tpp)) (entry * (1 + slp)) tif otype) = _
  rw [if_pos rfl]

theorem submit_bracket_derive_sell (symbol : String) (qty : ℤ)
    (entry tpp slp : ℚ) (tif otype : String) :
    submit_bracket symbol qty "sell" (some entry) none none (some tpp) (some slp) tif otype
      = submit_bracket_validated symbol qty "sell"
          (entry * (1 - tpp)) (entry * (1 + slp)) tif otype := by
  show (if ("sell" : String) = "buy" then
      submit_bracket_validated symbol qty "sell"
        (entry * (1 + tpp)) (entry * (1 - slp)) tif otype
    else
      submit_bracket_validated symbol qty "sell"
        (entry * (1 - tpp)) (entry * (1 + slp)) tif otype) = _
  rw [if_neg (by decide : ¬("sell" : String) = "buy")]

theorem submit_bracket_direct (symbol : String) (qty : ℤ) (side : String)
    (ep : Option ℚ) (tp sl : ℚ) (tpo slo : Option ℚ) (tif otype : String) :
    submit_bracket symbol qty side ep (some tp) (some sl) tpo slo tif otype
      = submit_bracket_validated symbol qty side tp sl tif otype := rfl

theorem submit_bracket_validated_ne_localResult (symbol : String) (qty : ℤ)
    (side : String) (tp0 sl0 : ℚ) (tif otype : String) (r : OrderResult) :
    submit_bracket_validated symbol qty side tp0 sl0 tif otype ≠ .localResult r := by
  unfold submit_bracket_validated
  dsimp only
  split <;> split <;> simp

/-- Claim C5 counterexample: a buy bracket whose prices violate the ordering
invariant (take profit 99 below stop loss 100) makes `submit_bracket`
raise a ValueError before any network call; it does not return a local
`OrderResult` with `ok = false` and error "invalid bracket prices" as the
claim states. -/
theorem C5_counterexample :
    submit_bracket "AAPL" 1 "buy" none (some 99) (some 100) none none "day" "market"
      = .raised (.buyOrdering 99 100)
    ∧ ¬ ∃ r : OrderResult,
        submit_bracket "AAPL" 1 "buy" none (some 99) (some 100) none none "day" "market"
          = .localResult r ∧ r.ok = false ∧ r.error = some "invalid bracket prices" := by
  have h99 : round2 (99 : ℚ) = ((9900 : ℤ) : ℚ) / 100 := round2_eq _ _ (by norm_num)
  have h100 : round2 (100 : ℚ) = ((10000 : ℤ) : ℚ) / 100 := round2_eq _ _ (by norm_num)
  have hmain :
      submit_bracket "AAPL" 1 "buy" none (some 99) (some 100) none none "day" "market"
        = .raised (.buyOrdering 99 100) := by
    rw [submit_bracket_direct,
      submit_bracket_validated_buy_raised _ _ _ _ _ _ (by rw [h99, h100]; norm_num),
      h99, h100]
    norm_num
  refine ⟨hmain, ?_⟩
  rintro ⟨r, hr, -, -⟩
  rw [hmain] at hr
  exact absurd hr (by simp)

/-- Claim C5 (amended): when the direct prices are not given, `submit_bracket`
derives them from the entry price and the percentages (buy:
tp = entry*(1+tp_pct), sl = entry*(1-sl_pct); sell: tp = entry*(1-tp_pct),
sl = entry*(1+sl_pct)), rounds both to 2 decimals — buy with entry 100,
tp_pct 0.01, sl_pct 0.005 posts take 101.00 and stop 99.50, sell posts
take 99.00 and stop 100.50 — and validates the ordering invariant (buy:
tp > sl; sell: tp < sl) before the network call; a violation raises a
local ValueError carrying the offending prices, nothing is posted to the
broker in that case, and no call path returns a local `OrderResult`. -/
theorem C5_submit_bracket (symbol : String) (qty : ℤ) (entry tpp slp : ℚ)
    (tif otype : String) :
    (round2 (entry * (1 + tpp)) > round2 (entry * (1 - slp)) →
      submit_bracket symbol qty "buy" (some entry) none none (some tpp) (some slp) tif otype
        = .posted ⟨py_upper symbol, qty, "buy", otype, tif, "bracket",
            round2 (entry * (1 + tpp)), round2 (entry * (1 - slp))⟩)
    ∧ (¬ round2 (entry * (1 + tpp)) > round2 (entry * (1 - slp)) →
      submit_bracket symbol qty "buy" (some entry) none none (some tpp) (some slp) tif otype
        = .raised (.buyOrdering (round2 (entry * (1 + tpp))) (round2 (entry * (1 - slp)))))
    ∧ (round2 (entry * (1 - tpp)) < round2 (entry * (1 + slp)) →
      submit_bracket symbol qty "sell" (some entry) none none (some tpp) (some slp) tif otype
        = .posted ⟨py_upper symbol, qty, "sell", otype, tif, "bracket",
            round2 (entry * (1 - tpp)), round2 (entry * (1 + slp))⟩)
    ∧ (¬ round2 (entry * (1 - tpp)) < round2 (entry * (1 + slp)) →
      submit_bracket symbol qty "sell" (some entry) none none (some tpp) (some slp) tif otype
        = .raised (.sellOrdering (round2 (entry * (1 - tpp))) (round2 (entry * (1 + slp)))))
    ∧ (submit_bracket "AAPL" 1 "buy" (some 100) none none (some (1 / 100)) (some (1 / 200))
        "day" "market"
        = .posted ⟨"AAPL", 1, "buy", "market", "day", "bracket", 101, 199 / 2⟩)
    ∧ (submit_bracket "AAPL" 1 "sell" (some 100) none none (some (1 / 100)) (some (1 / 200))
        "day" "market"
        = .posted ⟨"AAPL", 1, "sell", "market", "day", "bracket", 99, 201 / 2⟩)
    ∧ ∀ (ep tp sl tpo slo : Option ℚ) (sd : String) (r : OrderResult),
        submit_bracket symbol qty sd ep tp sl tpo slo tif otype ≠ .localResult r := by
  refine ⟨?_, ?_, ?_, ?_, ?_, ?_, ?_⟩
  · intro h
    rw [submit_bracket_derive_buy, submit_bracket_validated_buy_posted _ _ _ _ _ _ h]
  · intro h
    rw [submit_bracket_derive_buy, submit_bracket_validated_buy_raised _ _ _ _ _ _ h]
  · intro h
    rw [submit_bracket_derive_sell, submit_bracket_validated_sell_posted _ _ _ _ _ _ h]
  · intro h
    rw [submit_bracket_derive_sell, submit_bracket_validated_sell_raised _ _ _ _ _ _ h]
  · have h1 : round2 ((100 : ℚ) * (1 + 1 / 100)) = ((10100 : ℤ) : ℚ) / 100 :=
      round2_eq _ _ (by norm_num)
    have h2 : round2 ((100 : ℚ) * (1 - 1 / 200)) = ((9950 : ℤ) : ℚ) / 100 :=
      round2_eq _ _ (by norm_num)
    have hu : py_upper "AAPL" = "AAPL" := by decide
    rw [submit_bracket_derive_buy,
      submit_bracket_validated_buy_posted _ _ _ _ _ _ (by rw [h1, h2]; norm_num), h1, h2, hu]
    norm_num
  · have h1 : round2 ((100 : ℚ) * (1 - 1 / 100)) = ((9900 : ℤ) : ℚ) / 100 :=
      round2_eq _ _ (by norm_num)
    have h2 : round2 ((100 : ℚ) * (1 + 1 / 200)) = ((10050 : ℤ) : ℚ) / 100 :=
      round2_eq _ _ (by norm_num)
    have hu : py_upper "AAPL" = "AAPL" := by decide
    rw [submit_bracket_derive_sell,
      submit_bracket_validated_sell_posted _ _ _ _ _ _ (by rw [h1, h2]; norm_num), h1, h2, hu]
    norm_num
  · intro ep tp sl tpo slo sd r
    rcases tp with _ | tp
    · rcases sl with _ | sl <;>
        rcases ep with _ | ep <;> rcases tpo with _ | tpo <;> rcases slo with _ | slo <;>
        first
          | (simp only [submit_bracket]
             split <;> apply submit_bracket_validated_ne_localResult)
          | simp [submit_bracket]
    · rcases sl with _ | sl
      · rcases ep with _ | ep <;> rcases tpo with _ | tpo <;> rcases slo with _ | slo <;>
          first
            | (simp only [submit_bracket]
               split <;> apply submit_bracket_validated_ne_localResult)
            | simp [submit_bracket]
      · rw [submit_bracket_direct]
        apply submit_bracket_validated_ne_localResult

/-- Witness for C5 at a concrete input: the buy path with entry 200,
tp_pct 0.01, sl_pct 0.005 rounds to 202 and 199 and posts the bracket. -/
theorem C5_submit_bracket_witness :
    submit_bracket "MSFT" 2 "buy" (some 200) none none (some (1 / 100)) (some (1 / 200))
      "day" "market"
      = .posted ⟨"MSFT", 2, "buy", "market", "day", "bracket", 202, 199⟩ := by
  have h1 : round2 ((200 : ℚ) * (1 + 1 / 100)) = ((20200 : ℤ) : ℚ) / 100 :=
    round2_eq _ _ (by norm_num)
  have h2 : round2 ((200 : ℚ) * (1 - 1 / 200)) = ((19900 : ℤ) : ℚ) / 100 :=
    round2_eq _ _ (by norm_num)
  have hu : py_upper "MSFT" = "MSFT" := by decide
  have hmain := (C5_submit_bracket "MSFT" 2 200 (1 / 100) (1 / 200) "day" "market").1
    (by rw [h1, h2]; norm_num)
  rw [hmain, h1, h2, hu]
  norm_num

/-- Ledger of the paper broker: the `_positions` dict of
`services/execution.py::PaperBroker`, as a total function (every access
in the source uses `.get(symbol, 0.0)`). -/
abbrev Positions := String → ℚ

/-- Embedding of `services/execution.py::PaperBroker.place_order`. A buy
adds qty to the per-symbol ledger; a sell with position ≤ 0 returns a
failed result leaving the ledger unchanged; a sell with a positive
position sets it to `max 0 (pos - qty)`. Any other side value falls
through to the final ok return without touching the ledger.
`price.getD 0` models the Python `price or 0.0` (a 0.0 price is already
its own default). The `stop`/`take` arguments are only logged by the
source and are unused. -/
def PaperBroker.place_order (positions : Positions) (symbol side : String)
    (qty : ℚ) (price stop take : Option ℚ) : Positions × OrderResult :=
  let q := qty
  if side = "buy" then
    (Function.update positions symbol (positions symbol + q),
     ⟨true, some "paper", some "filled", some q, some (price.getD 0), none⟩)
  else if side = "sell" then
    let pos := positions symbol
    if pos ≤ 0 then
      (positions, ⟨false, none, none, none, none, some "no_position_to_sell"⟩)
    else
      (Function.update positions symbol (max 0 (pos - q)),
       ⟨true, some "paper", some "filled", some q, some (price.getD 0), none⟩)
  else
    (positions, ⟨true, some "paper", some "filled", some q, some (price.getD 0), none⟩)

/-- Embedding of `PaperBroker.get_position_qty`. -/
def PaperBroker.get_position_qty (positions : Positions) (symbol : String) : ℚ :=
  positions symbol

/-- Claim C8 counterexample: on a fresh simulated ledger, a sell of 10 does not
succeed with a -10 ledger entry as the claim ("always succeed, -qty for a
sell") requires: it fails with error no_position_to_sell and leaves the
ledger at 0. -/
theorem C8_counterexample :
    (PaperBroker.place_order (fun _ => 0) "AAPL" "sell" 10 (some 100) none none).2
      = ⟨false, none, none, none, none, some "no_position_to_sell"⟩
    ∧ (PaperBroker.place_order (fun _ => 0) "AAPL" "sell" 10 (some 100) none none).2.ok
        ≠ true
    ∧ (PaperBroker.place_order (fun _ => 0) "AAPL" "sell" 10 (some 100) none none).1
        "AAPL" = 0 := by
  have h : PaperBroker.place_order (fun _ => (0 : ℚ)) "AAPL" "sell" 10 (some 100) none none
      = (fun _ => 0, ⟨false, none, none, none, none, some "no_position_to_sell"⟩) := by
    unfold PaperBroker.place_order
    rw [if_neg (by decide : ¬("sell" : String) = "buy"), if_pos rfl,
      if_pos (le_refl (0 : ℚ))]
  rw [h]
  exact ⟨rfl, by simp, rfl⟩

/-- Claim C8 (amended): the simulated broker applies +qty to the per-symbol
ledger for a buy, returning ok with status filled; a sell with position
≤ 0 fails with no_position_to_sell and leaves the ledger unchanged; a
sell with a positive position succeeds and sets the position to
`max 0 (pos - qty)` (never negative); consequently a Buy qty followed by
a Sell qty on the same symbol, from any nonnegative starting position and
qty > 0, succeeds twice and returns every ledger entry to its starting
value. -/
theorem C8_paper_place_order (positions : Positions) (symbol : String)
    (q : ℚ) (price stop take : Option ℚ) :
    (PaperBroker.place_order positions symbol "buy" q price stop take
      = (Function.update positions symbol (positions symbol + q),
         ⟨true, some "paper", some "filled", some q, some (price.getD 0), none⟩))
    ∧ (positions symbol ≤ 0 →
        PaperBroker.place_order positions symbol "sell" q price stop take
          = (positions, ⟨false, none, none, none, none, some "no_position_to_sell"⟩))
    ∧ (0 < positions symbol →
        PaperBroker.place_order positions symbol "sell" q price stop take
          = (Function.update positions symbol (max 0 (positions symbol - q)),
             ⟨true, some "paper", some "filled", some q, some (price.getD 0), none⟩))
    ∧ (0 ≤ positions symbol → 0 < q →
        (PaperBroker.place_order positions symbol "buy" q price stop take).2.ok = true
        ∧ (PaperBroker.place_order
            (PaperBroker.place_order positions symbol "buy" q price stop take).1
            symbol "sell" q price stop take).2.ok = true
        ∧ ∀ s, (PaperBroker.place_order
            (PaperBroker.place_order positions symbol "buy" q price stop take).1
            symbol "sell" q price stop take).1 s = positions s) := by
  have hbuy : PaperBroker.place_order positions symbol "buy" q price stop take
      = (Function.update positions symbol (positions symbol + q),
         ⟨true, some "paper", some "filled", some q, some (price.getD 0), none⟩) := by
    unfold PaperBroker.place_order
    rw [if_pos rfl]
  have hsellpos : ∀ P : Positions, 0 < P symbol →
      PaperBroker.place_order P symbol "sell" q price stop take
        = (Function.update P symbol (max 0 (P symbol - q)),
           ⟨true, some "paper", some "filled", some q, some (price.getD 0), none⟩) := by
    intro P hgt
    unfold PaperBroker.place_order
    rw [if_neg (by decide : ¬("sell" : String) = "buy"), if_pos rfl,
      if_neg (not_le.mpr hgt)]
  refine ⟨hbuy, ?_, hsellpos positions, ?_⟩
  · intro hle
    unfold PaperBroker.place_order
    rw [if_neg (by decide : ¬("sell" : String) = "buy"), if_pos rfl, if_pos hle]
  · intro hpos hq
    have hafter : (PaperBroker.place_order positions symbol "buy" q price stop take).1
        symbol = positions symbol + q := by
      rw [hbuy]; exact Function.update_same _ _ _
    have hgt : 0 < (PaperBroker.place_order positions symbol "buy" q price stop take).1
        symbol := by
      rw [hafter]; linarith
    have hsell := hsellpos (PaperBroker.place_order positions symbol "buy" q price
      stop take).1 hgt
    refine ⟨by rw [hbuy], by rw [hsell], ?_⟩
    intro s
    rw [hsell]
    dsimp only
    by_cases hs : s = symbol
    · subst hs
      rw [Function.update_same, hafter]
      have hq2 : positions s + q - q = positions s := by ring
      rw [hq2, max_eq_right hpos]
    · rw [Function.update_noteq hs, hbuy]
      dsimp only
      rw [Function.update_noteq hs]

/-- Witness for C8 at concrete inputs: from a flat ledger, Buy 10 then
Sell 10 on AAPL both succeed and the AAPL position returns to 0. -/
theorem C8_paper_place_order_witness :
    (PaperBroker.place_order (fun _ => (0 : ℚ)) "AAPL" "buy" 10 (some 100) none none).2.ok
      = true
    ∧ (PaperBroker.place_order
        (PaperBroker.place_order (fun _ => (0 : ℚ)) "AAPL" "buy" 10 (some 100) none none).1
        "AAPL" "sell" 10 (some 100) none none).2.ok = true
    ∧ (PaperBroker.place_order
        (PaperBroker.place_order (fun _ => (0 : ℚ)) "AAPL" "buy" 10 (some 100) none none).1
        "AAPL" "sell" 10 (some 100) none none).1 "AAPL" = 0 := by
  have h := (C8_paper_place_order (fun _ => (0 : ℚ)) "AAPL" 10 (some 100) none none).2.2.2
    (by norm_num) (by norm_num)
  exact ⟨h.1, h.2.1, h.2.2 "AAPL"⟩

/-- Payload of the market order `AlpacaBroker.place_order` posts to
POST /orders; the `qty` field is the string
`str(max(1, int(round(qty)))) if qty >= 1 else "1"`, modelled by the
integer that string renders. -/
structure MarketOrderPayload where
  symbol : String
  qty : ℤ
  side : String
  order_type : String
  time_in_force : String
deriving DecidableEq, Repr

/-- Observable local behaviour of `AlpacaBroker.place_order` up to its
network call: either an `OrderResult` returned before any order is
posted (flip throttle, sell guard), or the POST is reached with the given
payload. -/
inductive AlpacaPlaceOutcome
  | rejected (r : OrderResult)
  | posted (p : MarketOrderPayload)
deriving DecidableEq, Repr

/-- Embedding of `services/execution.py::AlpacaBroker.place_order` up to
the network call. `last_side_time` is the `_last_side_time` dict with its
`.get(key, 0.0)` default, `min_flip_secs` the `_min_flip_secs` attribute,
`now` the `time.time()` sample, and `position_qty` the value
`self.get_position_qty(symbol)` returns for the uppercased symbol (0 when
the positions endpoint answers 404). The best-effort cancellation of
opposite open orders between the sell guard and the POST performs no
local state change these claims observe. The function consults no
allow-short configuration: the sell guard fires whenever
`position_qty ≤ 0`. -/
def AlpacaBroker.place_order (last_side_time : String × String → ℚ)
    (min_flip_secs now position_qty : ℚ)
    (symbol side : String) (qty : ℚ) : AlpacaPlaceOutcome :=
  let symbol := py_upper symbol
  if now - last_side_time (symbol, side) < min_flip_secs then
    .rejected ⟨false, none, none, none, none, some "flip_throttled"⟩
  else if side = "sell" ∧ position_qty ≤ 0 then
    .rejected ⟨false, none, none, none, none, some "no_position_to_sell"⟩
  else
    .posted ⟨symbol, if 1 ≤ qty then max 1 (round_half_even qty) else 1,
      side, "market", "day"⟩

/-- Predicate written from the claim and the spec sentence it cites: a
sell is rejected as no_position_to_sell exactly when there is no evidence
of a long position (position_qty ≤ 0) AND the configuration forbids
opening shorts. Stated for comparison with the code, which consults no
such configuration. -/
def spec_sell_reject (position_qty : ℚ) (allow_short : Bool) : Bool :=
  decide (position_qty ≤ 0) && !allow_short

/-- Claim C7 counterexample: a sell with zero position while the configuration
allows shorts (ALLOW_SHORT true) and no flip throttle applies. Under the
claim's condition this sell is not rejected, since shorting is not
forbidden; but `AlpacaBroker.place_order` rejects it locally with
no_position_to_sell — the broker consults no shorting configuration. -/
theorem C7_counterexample :
    spec_sell_reject 0 true = false
    ∧ AlpacaBroker.place_order (fun _ => 0) 2 100 0 "AAPL" "sell" 5
        = .rejected ⟨false, none, none, none, none, some "no_position_to_sell"⟩ := by
  constructor
  · decide
  · unfold AlpacaBroker.place_order
    rw [if_neg (by norm_num), if_pos ⟨rfl, le_refl 0⟩]

/-- Claim C7 (amended): absent a flip-throttle rejection, a sell submitted to
`AlpacaBroker.place_order` is rejected locally with error
no_position_to_sell, without posting any order, exactly when the position
quantity is ≤ 0 — unconditionally: the broker consults no shorting
configuration, so the guard fires even when the coordinator allows
shorts. -/
theorem C7_alpaca_sell_guard (last_side_time : String × String → ℚ)
    (min_flip_secs now position_qty qty : ℚ) (symbol : String)
    (h : ¬ now - last_side_time (py_upper symbol, "sell") < min_flip_secs) :
    (AlpacaBroker.place_order last_side_time min_flip_secs now position_qty
        symbol "sell" qty
        = .rejected ⟨false, none, none, none, none, some "no_position_to_sell"⟩
      ↔ position_qty ≤ 0)
    ∧ (0 < position_qty →
        AlpacaBroker.place_order last_side_time min_flip_secs now position_qty
          symbol "sell" qty
          = .posted ⟨py_upper symbol,
              (if 1 ≤ qty then max 1 (round_half_even qty) else 1),
              "sell", "market", "day"⟩) := by
  constructor
  · unfold AlpacaBroker.place_order
    dsimp only
    rw [if_neg h]
    by_cases hp : position_qty ≤ 0
    · rw [if_pos ⟨rfl, hp⟩]
      simp [hp]
    · rw [if_neg (by simp [hp])]
      simp [hp]
  · intro hp
    unfold AlpacaBroker.place_order
    dsimp only
    rw [if_neg h, if_neg (by simp [not_le.mpr hp])]

/-- Witness for C7 at a concrete input: with a long position of 3 shares
and no flip throttle, a sell of 5 reaches the POST with payload qty 5. -/
theorem C7_alpaca_sell_guard_witness :
    AlpacaBroker.place_order (fun _ => 0) 2 100 3 "MSFT" "sell" 5
      = .posted ⟨"MSFT", 5, "sell", "market", "day"⟩ := by
  have h := (C7_alpaca_sell_guard (fun _ => 0) 2 100 3 5 "MSFT" (by norm_num)).2
    (by norm_num)
  rw [h]
  have hu : py_upper "MSFT" = "MSFT" := by decide
  rw [hu, if_pos (by norm_num : (1 : ℚ) ≤ 5)]
  norm_num [round_half_even]

/-- The two broker classes `run_worker._make_broker` can select. -/
inductive Broker
  | paper
  | alpaca
deriving DecidableEq, Repr

/-- Attribute names each broker class in `services/execution.py` defines
(instance attributes set in the constructor plus methods). Neither class
defines `position_qty`, `open_orders` or `place_bracket`; both define
`get_position_qty`. -/
def broker_attrs : Broker → List String
  | .paper => ["paper", "_positions", "place_order", "get_position_qty"]
  | .alpaca => ["paper", "base", "key", "secret", "_last_side_time",
      "_min_flip_secs", "_headers", "_request", "get_position_qty",
      "_get_open_orders", "_cancel_order", "_cancel_opposite_open_orders",
      "place_order"]

/-- Python hasattr on a broker object, used by the worker's duck-typed
checks; calling an attribute off this list raises AttributeError. -/
def hasattr (b : Broker) (name : String) : Bool :=
  (broker_attrs b).contains name

/-- Embedding of `run_worker.py::_position_qty_safe`. The worker calls
`BROKER.position_qty(symbol)`; `if_defined` stands for the quantity such
a method would return if the attribute existed. When the attribute is
missing the call raises AttributeError, and the bare except converts any
exception to 0.0. -/
def position_qty_safe (b : Broker) (if_defined : ℚ) : ℚ :=
  if hasattr b "position_qty" then if_defined else 0

/-- Embedding of `run_worker.py::_open_orders_safe`: the hasattr check on
`open_orders` with the `[]` fallback; `if_defined` stands for the order
list such a method would return if the attribute existed. -/
def open_orders_safe (b : Broker) (if_defined : List String) : List String :=
  if hasattr b "open_orders" then if_defined else []

theorem position_qty_safe_eq_zero (b : Broker) (v : ℚ) :
    position_qty_safe b v = 0 := by
  cases b <;> rfl

theorem open_orders_safe_eq_nil (b : Broker) (l : List String) :
    open_orders_safe b l = [] := by
  cases b <;> rfl

theorem hasattr_place_bracket_eq_false (b : Broker) :
    hasattr b "place_bracket" = false := by
  cases b <;> rfl

/-- Reasons `_throttle` can return, carrying the data interpolated into
the message strings ("same-side throttle: ..." / "flip debounce: ..."). -/
inductive ThrottleReason
  | sameSide (side : String) (elapsed min_secs : ℚ)
  | flip (last_side side : String) (elapsed min_secs : ℚ)
deriving DecidableEq, Repr

/-- Worker debounce state: the module globals `_last_action_side` and
`_last_action_ts` of run_worker.py. -/
structure WorkerState where
  last_action_side : Option String
  last_action_ts : ℚ
deriving DecidableEq, Repr

/-- Embedding of `run_worker.py::_throttle`; `now` is the `time.time()`
sample the function takes. -/
def throttle (st : WorkerState) (now : ℚ) (side : String) (min_secs : ℚ) :
    Option ThrottleReason :=
  match st.last_action_side with
  | none => none
  | some last =>
    let elapsed := now - st.last_action_ts
    if elapsed < min_secs then
      if last = side then some (.sameSide side elapsed min_secs)
      else some (.flip last side elapsed min_secs)
    else none

/-- Embedding of `run_worker.py::_update_action_clock`; `now` is the
`time.time()` sample it takes. -/
def update_action_clock (side : String) (now : ℚ) : WorkerState :=
  ⟨some side, now⟩

/-- Direction-resolution block of `run_worker.py::once` (lines 192-213):
from the decision side, the safe position quantity and ALLOW_SHORT it
computes (can_send, order_side, reason_ex). -/
def direction_resolution (dec_side : String) (pos_qty : ℚ)
    (allow_short : Bool) : Bool × Option String × String :=
  if dec_side = "buy" then
    if pos_qty ≤ 0 then
      (true, some "buy", if pos_qty < 0 then " (cover short)" else "")
    else (false, none, "")
  else if dec_side = "sell" then
    if 0 < pos_qty then (true, some "sell", "")
    else if allow_short then (true, some "sell", " (open short)")
    else (false, none, "")
  else (false, none, "")

/-- The submission call `once` makes: the bracket call with percentages
(source lines 233-239) or the market call with the advisory stop/take
(source line 244). -/
inductive SubmitCall
  | bracket (symbol side : String) (qty : ℤ) (tp_pct sl_pct : ℚ)
  | market (symbol side : String) (qty : ℤ) (price stop take : ℚ)
deriving DecidableEq, Repr

/-- What the broker call produced: a returned `OrderResult` or a raised
exception carrying its message. -/
inductive BrokerCallResult
  | returned (r : OrderResult)
  | raised (msg : String)
deriving DecidableEq, Repr

/-- The notification the post-submission block emits: a trade
notification, an order-failed error notification carrying the result's
error field, or an order-exception notification. -/
inductive PostSubmission
  | tradeNotified (r : OrderResult)
  | errorNotified (err : Option String)
  | exceptionNotified (msg : String)
deriving DecidableEq, Repr

/-- Post-submission block of `run_worker.py::once` (lines 246-260) as its
control flow reads, i.e. the behaviour the block would have if the
`services.alerts` module defined the notify functions the block calls: a
returned result with ok notifies the trade and updates the action clock;
a returned result without ok notifies the error (the result's error
field) and leaves the state; a raised exception notifies it and leaves
the state. `now` models the `time.time()` sample `_update_action_clock`
takes. The alerts module defines no such module-level functions, so in
the current source this behaviour is dead: `post_submission_actual`
below embeds the real block with the module-attribute lookups included,
and the C4 theorem settles the claim against it. -/
def post_submission (st : WorkerState) (now : ℚ) (order_side : String)
    (res : BrokerCallResult) : WorkerState × PostSubmission :=
  match res with
  | .returned r =>
    if r.ok then (update_action_clock order_side now, .tradeNotified r)
    else (st, .errorNotified r.error)
  | .raised msg => (st, .exceptionNotified msg)

/-- Module-level attribute names of `services/alerts.py`: the names bound
by its imports, the module logger, the TelegramAlerter class, the
singleton slot and get_alerter. The names notify_start, notify_trade,
notify_error and maybe_heartbeat exist only as methods of TelegramAlerter
and are not module attributes. -/
def alerts_attrs : List String :=
  ["annotations", "os", "time", "json", "logging", "Optional", "Any",
   "Dict", "requests", "log", "TelegramAlerter", "_singleton",
   "get_alerter"]

/-- Python hasattr on the `services.alerts` module object (`run_worker.py`
does `from services import alerts` and calls attributes on the module);
looking up a missing attribute raises AttributeError. -/
def alerts_hasattr (name : String) : Bool := alerts_attrs.contains name

theorem alerts_hasattr_notify_trade : alerts_hasattr "notify_trade" = false := by
  decide

theorem alerts_hasattr_notify_error : alerts_hasattr "notify_error" = false := by
  decide

theorem alerts_hasattr_maybe_heartbeat :
    alerts_hasattr "maybe_heartbeat" = false := by
  decide

/-- What the submission tail of `once` actually does, alerts-module
lookups included: one of the would-be notifications (reachable only when
the module defines the looked-up function), or an AttributeError escaping
`once()`, carrying the missing attribute name. -/
inductive SubmissionTail
  | tradeNotified (r : OrderResult)
  | errorNotified (err : Option String)
  | exceptionNotified (msg : String)
  | escaped (missing : String)
deriving DecidableEq, Repr

/-- The real post-submission block of `run_worker.py` (lines 246-260),
with the `services.alerts` module-attribute lookups modelled: the calls
`alerts.notify_trade(...)` (line 247) and `alerts.notify_error(...)`
(line 255) sit inside the try block, so the AttributeError each raises
when the module lacks the name is caught by the handler at line 258;
that handler itself performs the `alerts.notify_error` lookup of line
260, and an AttributeError raised there escapes `once()`. In the current
source neither notify_trade nor notify_error exists, so every path
leaves the debounce state unchanged — `_update_action_clock` at line 252
is dead code — and escapes naming notify_error. -/
def post_submission_actual (st : WorkerState) (now : ℚ) (order_side : String)
    (res : BrokerCallResult) : WorkerState × SubmissionTail :=
  match res with
  | .returned r =>
    if r.ok then
      if alerts_hasattr "notify_trade" then
        (update_action_clock order_side now, .tradeNotified r)
      else if alerts_hasattr "notify_error" then
        (st, .exceptionNotified "notify_trade")
      else (st, .escaped "notify_error")
    else
      if alerts_hasattr "notify_error" then
        (st, .errorNotified r.error)
      else (st, .escaped "notify_error")
  | .raised msg =>
    if alerts_hasattr "notify_error" then (st, .exceptionNotified msg)
    else (st, .escaped "notify_error")

/-- The env-derived configuration `once` reads (module constants of
run_worker.py, lower-cased here): TICKER, EQUITY, RISK_PCT, ALLOW_SHORT,
BRACKET_MODE, TAKE_PROFIT_PCT, STOP_LOSS_PCT, MIN_FLIP_SECS, the risk
module's ATR_STOP_MULT/ATR_TAKE_MULT, and the selected BROKER. -/
structure WorkerEnv where
  ticker : String
  equity : ℚ
  risk_pct : ℚ
  allow_short : Bool
  bracket_mode : Bool
  take_profit_pct : ℚ
  stop_loss_pct : ℚ
  min_flip_secs : ℚ
  atr_stop_mult : ℚ
  atr_take_mult : ℚ
  broker : Broker
deriving DecidableEq, Repr

/-- Per-iteration inputs of `once`: the decision side from the policy,
price/atr from the last indicator row, the `time.time()` sample,
`pos_if_defined`/`oo_if_defined` the values the missing broker attributes
`position_qty`/`open_orders` would produce if they existed, and
`broker_result` what the broker call returns or raises if one is made. -/
structure IterationInput where
  dec_side : String
  price : ℚ
  atr : ℚ
  now : ℚ
  pos_if_defined : ℚ
  oo_if_defined : List String
  broker_result : BrokerCallResult
deriving DecidableEq, Repr

/-- Outcome of one `once` iteration from the point the decision is
known. -/
inductive OnceOutcome
  | throttled (reason : ThrottleReason)
  | skippedNoSend
  | skippedOpenOrders (n : ℕ)
  | submitted (call : SubmitCall) (post : PostSubmission)
deriving DecidableEq, Repr

/-- The block of `run_worker.py::once` below the heartbeat call (lines
186-260), as a function of its inputs — the behaviour an iteration has
when control reaches the debounce check: sizing, the debounce check for
buy/sell decisions, direction resolution, the no-send and open-order
guards, the bracket-vs-market call selection and the would-be
post-submission state update (see `post_submission`). The data fetch and
the indicator computation are external collaborators per the spec's
scope. In the current source control never reaches this block: the
`alerts.maybe_heartbeat` call at line 183 raises AttributeError first —
`once_full` below embeds the full iteration including that abort and the
real submission tail. Returns the new debounce state with the outcome. -/
def once (env : WorkerEnv) (st : WorkerState) (inp : IterationInput) :
    WorkerState × OnceOutcome :=
  let sized := position_size env.equity (some inp.atr) (some inp.price)
    env.risk_pct env.atr_stop_mult env.atr_take_mult
  let qty := sized.1
  let stop := sized.2.1
  let take := sized.2.2
  let pos_qty := position_qty_safe env.broker inp.pos_if_defined
  let throttle_reason :=
    if inp.dec_side = "buy" ∨ inp.dec_side = "sell" then
      throttle st inp.now inp.dec_side env.min_flip_secs
    else none
  match throttle_reason with
  | some r => (st, .throttled r)
  | none =>
    let resolved := direction_resolution inp.dec_side pos_qty env.allow_short
    let can_send := resolved.1
    match resolved.2.1 with
    | none => (st, .skippedNoSend)
    | some oside =>
      if ¬ (can_send = true ∧ 0 < qty) then (st, .skippedNoSend)
      else
        let oo := open_orders_safe env.broker inp.oo_if_defined
        if oo ≠ [] then (st, .skippedOpenOrders oo.length)
        else
          let call :=
            if env.bracket_mode && hasattr env.broker "place_bracket" then
              SubmitCall.bracket env.ticker oside qty
                env.take_profit_pct env.stop_loss_pct
            else
              SubmitCall.market env.ticker oside qty inp.price stop take
          let post := post_submission st inp.now oside inp.broker_result
          (post.1, .submitted call post.2)

/-- Outcome of one full iteration of `run_worker.py::once`: an
AttributeError that escaped `once()` (carrying the missing
`services.alerts` attribute name), a debounce skip, a guard skip, or a
submission with its real tail. -/
inductive OnceFullOutcome
  | escaped (missing : String)
  | throttled (reason : ThrottleReason)
  | skippedNoSend
  | skippedOpenOrders (n : ℕ)
  | submitted (call : SubmitCall) (tail : SubmissionTail)
deriving DecidableEq, Repr

/-- Embedding of the full `run_worker.py::once` iteration from the point
where the decision, price and atr are known, `services.alerts`
module-attribute lookups included: after the sizing and position read
(lines 164-180, effect-free here), line 183 calls
`alerts.maybe_heartbeat(...)`, a module-attribute lookup that raises
AttributeError when the name is missing; `once` has no handler, so the
error escapes to the loop boundary with the module state unchanged. Only
when that lookup succeeds does control reach the debounce check and the
block continue as in `once`, ending in the real submission tail
`post_submission_actual`. -/
def once_full (env : WorkerEnv) (st : WorkerState) (inp : IterationInput) :
    WorkerState × OnceFullOutcome :=
  let sized := position_size env.equity (some inp.atr) (some inp.price)
    env.risk_pct env.atr_stop_mult env.atr_take_mult
  let qty := sized.1
  let stop := sized.2.1
  let take := sized.2.2
  let pos_qty := position_qty_safe env.broker inp.pos_if_defined
  if alerts_hasattr "maybe_heartbeat" = false then (st, .escaped "maybe_heartbeat")
  else
    let throttle_reason :=
      if inp.dec_side = "buy" ∨ inp.dec_side = "sell" then
        throttle st inp.now inp.dec_side env.min_flip_secs
      else none
    match throttle_reason with
    | some r => (st, .throttled r)
    | none =>
      let resolved := direction_resolution inp.dec_side pos_qty env.allow_short
      let can_send := resolved.1
      match resolved.2.1 with
      | none => (st, .skippedNoSend)
      | some oside =>
        if ¬ (can_send = true ∧ 0 < qty) then (st, .skippedNoSend)
        else
          let oo := open_orders_safe env.broker inp.oo_if_defined
          if oo ≠ [] then (st, .skippedOpenOrders oo.length)
          else
            let call :=
              if env.bracket_mode && hasattr env.broker "place_bracket" then
                SubmitCall.bracket env.ticker oside qty
                  env.take_profit_pct env.stop_loss_pct
              else
                SubmitCall.market env.ticker oside qty inp.price stop take
            let post := post_submission_actual st inp.now oside inp.broker_result
            (post.1, .submitted call post.2)

/-- Every real iteration aborts at the heartbeat call of line 183: the
`services.alerts` module defines no maybe_heartbeat, so the
AttributeError escapes `once()` before the debounce check, with the
debounce state unchanged. -/
theorem once_full_escapes (env : WorkerEnv) (st : WorkerState)
    (inp : IterationInput) :
    once_full env st inp = (st, .escaped "maybe_heartbeat") := by
  simp only [once_full, alerts_hasattr_maybe_heartbeat, eq_self_iff_true, if_true]

/-- Claim C1: direction resolution in once (source lines 197-213): a buy
decision prepares an order iff pos_qty ≤ 0, with the informational tag
" (cover short)" exactly when pos_qty < 0, and skips when pos_qty > 0; a
sell decision prepares a sell when pos_qty > 0 (close long), skips when
pos_qty ≤ 0 with shorting disabled, and prepares a sell tagged
" (open short)" when pos_qty ≤ 0 with shorting enabled. -/
theorem C1_direction_resolution (pos_qty : ℚ) (allow_short : Bool) :
    ((direction_resolution "buy" pos_qty allow_short).1 = true ↔ pos_qty ≤ 0)
    ∧ (pos_qty ≤ 0 → direction_resolution "buy" pos_qty allow_short
        = (true, some "buy", if pos_qty < 0 then " (cover short)" else ""))
    ∧ (0 < pos_qty → direction_resolution "buy" pos_qty allow_short
        = (false, none, ""))
    ∧ (0 < pos_qty → direction_resolution "sell" pos_qty allow_short
        = (true, some "sell", ""))
    ∧ (pos_qty ≤ 0 → allow_short = false →
        direction_resolution "sell" pos_qty allow_short = (false, none, ""))
    ∧ (pos_qty ≤ 0 → allow_short = true →
        direction_resolution "sell" pos_qty allow_short
          = (true, some "sell", " (open short)")) := by
  have hsb : ¬("sell" : String) = "buy" := by decide
  refine ⟨?_, ?_, ?_, ?_, ?_, ?_⟩
  · unfold direction_resolution
    rw [if_pos rfl]
    by_cases hp : pos_qty ≤ 0
    · rw [if_pos hp]; simpa using hp
    · rw [if_neg hp]; simpa using hp
  · intro hp
    unfold direction_resolution
    rw [if_pos rfl, if_pos hp]
  · intro hp
    unfold direction_resolution
    rw [if_pos rfl, if_neg (not_le.mpr hp)]
  · intro hp
    unfold direction_resolution
    rw [if_neg hsb, if_pos rfl, if_pos hp]
  · intro hp hs
    unfold direction_resolution
    rw [if_neg hsb, if_pos rfl, if_neg (not_lt.mpr hp), hs]
    rw [if_neg (by simp)]
  · intro hp hs
    unfold direction_resolution
    rw [if_neg hsb, if_pos rfl, if_neg (not_lt.mpr hp), hs]
    rw [if_pos rfl]

/-- Witness for C1 at the spec's worked rows: long 5 + buy skips, long 5
+ sell closes, flat + sell with shorting disabled skips, flat + sell with
shorting enabled opens a short. -/
theorem C1_direction_resolution_witness :
    direction_resolution "buy" 5 false = (false, none, "")
    ∧ direction_resolution "sell" 5 false = (true, some "sell", "")
    ∧ direction_resolution "sell" 0 false = (false, none, "")
    ∧ direction_resolution "sell" 0 true = (true, some "sell", " (open short)") :=
  ⟨(C1_direction_resolution 5 false).2.2.1 (by norm_num),
   (C1_direction_resolution 5 false).2.2.2.1 (by norm_num),
   (C1_direction_resolution 0 false).2.2.2.2.1 (by norm_num) rfl,
   (C1_direction_resolution 0 true).2.2.2.2.2 (by norm_num) rfl⟩

/-- Claim C2: for every broker and whatever quantity the missing attribute
would have returned, `position_qty_safe` returns 0: both brokers define
`get_position_qty` while the worker calls `position_qty`, the
AttributeError is caught and converted to 0.0, so `once` behaves exactly
as it would on a flat position report. -/
theorem C2_position_qty_safe (b : Broker) (if_defined : ℚ) :
    position_qty_safe b if_defined = 0
    ∧ hasattr b "get_position_qty" = true
    ∧ hasattr b "position_qty" = false
    ∧ ∀ (env : WorkerEnv) (st : WorkerState) (inp : IterationInput),
        once env st inp = once env st
          ⟨inp.dec_side, inp.price, inp.atr, inp.now, 0,
           inp.oo_if_defined, inp.broker_result⟩ := by
  refine ⟨position_qty_safe_eq_zero b if_defined, by cases b <;> rfl,
    by cases b <;> rfl, ?_⟩
  intro env st inp
  rcases inp with ⟨ds, pr, atr, now, posd, ood, br⟩
  simp only [once, position_qty_safe_eq_zero]

/-- Witness for C2 at concrete inputs: the paper broker with any reported
position of 7 still yields 0. -/
theorem C2_position_qty_safe_witness :
    position_qty_safe Broker.paper 7 = 0
    ∧ hasattr Broker.paper "position_qty" = false
    ∧ once ⟨"AAPL", 10000, 1 / 100, false, true, 1 / 100, 1 / 200, 60, 1, 2,
          Broker.paper⟩ ⟨none, 0⟩ ⟨"buy", 100, 2, 50, 7, [], .raised "boom"⟩
        = once ⟨"AAPL", 10000, 1 / 100, false, true, 1 / 100, 1 / 200, 60, 1, 2,
          Broker.paper⟩ ⟨none, 0⟩ ⟨"buy", 100, 2, 50, 0, [], .raised "boom"⟩ :=
  ⟨(C2_position_qty_safe Broker.paper 7).1,
   (C2_position_qty_safe Broker.paper 7).2.2.1,
   (C2_position_qty_safe Broker.paper 7).2.2.2
     ⟨"AAPL", 10000, 1 / 100, false, true, 1 / 100, 1 / 200, 60, 1, 2, Broker.paper⟩
     ⟨none, 0⟩ ⟨"buy", 100, 2, 50, 7, [], .raised "boom"⟩⟩

/-- Claim C3: the debounce. With no prior action side the throttle never fires;
with a prior side and elapsed = now - last_action_ts < min_flip_secs it
reports the same-side reason when the sides agree and the flip reason
otherwise, and `once` then skips with the debounce state unchanged and no
submission; with elapsed ≥ min_flip_secs the throttle does not fire. -/
theorem C3_throttle (ts now min_secs : ℚ) (last side : String)
    (env : WorkerEnv) (st : WorkerState) (inp : IterationInput) :
    (throttle ⟨none, ts⟩ now side min_secs = none)
    ∧ (now - ts < min_secs → last = side →
        throttle ⟨some last, ts⟩ now side min_secs
          = some (.sameSide side (now - ts) min_secs))
    ∧ (now - ts < min_secs → last ≠ side →
        throttle ⟨some last, ts⟩ now side min_secs
          = some (.flip last side (now - ts) min_secs))
    ∧ (min_secs ≤ now - ts →
        throttle ⟨some last, ts⟩ now side min_secs = none)
    ∧ (∀ r, (inp.dec_side = "buy" ∨ inp.dec_side = "sell") →
        throttle st inp.now inp.dec_side env.min_flip_secs = some r →
        once env st inp = (st, .throttled r)) := by
  refine ⟨rfl, ?_, ?_, ?_, ?_⟩
  · intro he hs
    unfold throttle
    dsimp only
    rw [if_pos he, if_pos hs]
  · intro he hs
    unfold throttle
    dsimp only
    rw [if_pos he, if_neg hs]
  · intro he
    unfold throttle
    dsimp only
    rw [if_neg (not_lt.mpr he)]
  · intro r h1 h2
    simp only [once, if_pos h1, h2]

/-- Witness for C3 at the spec's example: min_flip_secs 60, a first buy
from a fresh state is not throttled, a second same-side buy 10 seconds
later reports the same-side throttle reason, a third 61 seconds after the
action is not throttled. -/
theorem C3_throttle_witness :
    throttle ⟨none, 0⟩ 0 "buy" 60 = none
    ∧ throttle ⟨some "buy", 0⟩ 10 "buy" 60 = some (.sameSide "buy" 10 60)
    ∧ throttle ⟨some "buy", 0⟩ 61 "buy" 60 = none := by
  refine ⟨(C3_throttle 0 0 60 "buy" "buy" ⟨"AAPL", 10000, 1 / 100, false, true,
    1 / 100, 1 / 200, 60, 1, 2, .paper⟩ ⟨none, 0⟩
    ⟨"hold", 100, 2, 0, 0, [], .raised "x"⟩).1, ?_, ?_⟩
  · have h := (C3_throttle 0 10 60 "buy" "buy" ⟨"AAPL", 10000, 1 / 100, false, true,
      1 / 100, 1 / 200, 60, 1, 2, .paper⟩ ⟨none, 0⟩
      ⟨"hold", 100, 2, 0, 0, [], .raised "x"⟩).2.1 (by norm_num) rfl
    simpa using h
  · exact (C3_throttle 0 61 60 "buy" "buy" ⟨"AAPL", 10000, 1 / 100, false, true,
      1 / 100, 1 / 200, 60, 1, 2, .paper⟩ ⟨none, 0⟩
      ⟨"hold", 100, 2, 0, 0, [], .raised "x"⟩).2.2.2.1 (by norm_num)

/-- Claim C4 (code bug): `run_worker.py` lines 246-260 call the
module-level functions `alerts.notify_trade` and `alerts.notify_error`,
but `services/alerts.py` defines no such module functions (those names
are methods of TelegramAlerter; the module level holds only the imports,
the logger, the class, the singleton slot and get_alerter). On an ok
result the AttributeError from notify_trade at line 247 fires before
`_update_action_clock` at line 252, is caught by the handler at line 258,
and the handler's own `alerts.notify_error` at line 260 raises again and
escapes `once()`. Against the claim (which matches the spec's and the
code's own evident intent), the debounce state is never updated — not
even on ok = true — no notification is ever emitted, and every submission
path ends with an escaping AttributeError naming notify_error, whatever
the broker call produced. -/
theorem C4_notify_attribute_error (st : WorkerState) (now : ℚ)
    (oside : String) (res : BrokerCallResult) :
    alerts_hasattr "notify_trade" = false
    ∧ alerts_hasattr "notify_error" = false
    ∧ post_submission_actual st now oside res = (st, .escaped "notify_error")
    ∧ (∀ r, res = .returned r → r.ok = true →
        (post_submission_actual st now oside res).1 = st
          ∧ ∀ tr, (post_submission_actual st now oside res).2
              ≠ SubmissionTail.tradeNotified tr) := by
  have hmain : post_submission_actual st now oside res
      = (st, .escaped "notify_error") := by
    rcases res with r | msg
    · by_cases hok : r.ok
      · simp [post_submission_actual, hok, alerts_hasattr_notify_trade,
          alerts_hasattr_notify_error]
      · simp [post_submission_actual, hok, alerts_hasattr_notify_error]
    · simp [post_submission_actual, alerts_hasattr_notify_error]
  refine ⟨alerts_hasattr_notify_trade, alerts_hasattr_notify_error, hmain, ?_⟩
  intro r hres hok
  rw [hmain]
  exact ⟨rfl, fun tr => by simp⟩

/-- Witness for C4 at the failing input: a concrete ok = true result from
the paper broker still leaves the fresh debounce state unchanged, no
trade notification happens, and the AttributeError naming notify_error
escapes. -/
theorem C4_notify_attribute_error_witness :
    post_submission_actual ⟨none, 0⟩ 5 "buy"
        (.returned ⟨true, some "paper", some "filled", none, none, none⟩)
      = (⟨none, 0⟩, .escaped "notify_error")
    ∧ (post_submission_actual ⟨none, 0⟩ 5 "buy"
        (.returned ⟨true, some "paper", some "filled", none, none, none⟩)).1
      = ⟨none, 0⟩ :=
  ⟨(C4_notify_attribute_error ⟨none, 0⟩ 5 "buy"
      (.returned ⟨true, some "paper", some "filled", none, none, none⟩)).2.2.1,
   ((C4_notify_attribute_error ⟨none, 0⟩ 5 "buy"
      (.returned ⟨true, some "paper", some "filled", none, none, none⟩)).2.2.2
      _ rfl rfl).1⟩

/-- Claim C9: for every broker and whatever list the missing `open_orders`
attribute would have returned, `open_orders_safe` returns the empty list
(neither broker defines `open_orders`, so the hasattr check fails), and
consequently the duplicate-order guard in `once` never produces a skip,
whatever open orders exist at the broker. -/
theorem C9_open_orders_safe (b : Broker) (oo : List String) :
    open_orders_safe b oo = []
    ∧ hasattr b "open_orders" = false
    ∧ ∀ (env : WorkerEnv) (st : WorkerState) (inp : IterationInput) (n : ℕ),
        (once env st inp).2 ≠ .skippedOpenOrders n := by
  refine ⟨open_orders_safe_eq_nil b oo, by cases b <;> rfl, ?_⟩
  intro env st inp n
  simp only [once, open_orders_safe_eq_nil, ne_eq, not_true_eq_false, if_false]
  split
  · simp
  · split
    · simp
    · split
      · simp
      · simp

/-- Witness for C9 at concrete inputs: even a nonempty would-be order
list on the alpaca broker yields the empty list. -/
theorem C9_open_orders_safe_witness :
    open_orders_safe Broker.alpaca ["order-1", "order-2"] = []
    ∧ hasattr Broker.alpaca "open_orders" = false
    ∧ (once ⟨"AAPL", 10000, 1 / 100, false, true, 1 / 100, 1 / 200, 60, 1, 2,
          Broker.alpaca⟩ ⟨none, 0⟩
        ⟨"buy", 100, 2, 50, 0, ["order-1", "order-2"], .raised "boom"⟩).2
        ≠ .skippedOpenOrders 2 :=
  ⟨(C9_open_orders_safe Broker.alpaca ["order-1", "order-2"]).1,
   (C9_open_orders_safe Broker.alpaca ["order-1", "order-2"]).2.1,
   (C9_open_orders_safe Broker.alpaca ["order-1", "order-2"]).2.2
     ⟨"AAPL", 10000, 1 / 100, false, true, 1 / 100, 1 / 200, 60, 1, 2, Broker.alpaca⟩
     ⟨none, 0⟩ ⟨"buy", 100, 2, 50, 0, ["order-1", "order-2"], .raised "boom"⟩ 2⟩

/-- Claim C10: neither broker defines `place_bracket`, so the bracket branch in
`once` is dead even when BRACKET_MODE is on: every submission `once`
makes is a market `place_order` call, and the configured
TAKE_PROFIT_PCT/STOP_LOSS_PCT never influence the iteration — changing
them changes nothing about what `once` does. -/
theorem C10_market_only (b : Broker) :
    hasattr b "place_bracket" = false
    ∧ (∀ (env : WorkerEnv) (st : WorkerState) (inp : IterationInput)
        (call : SubmitCall) (post : PostSubmission),
        (once env st inp).2 = .submitted call post →
        ∃ symbol side qty price stop take,
          call = .market symbol side qty price stop take)
    ∧ ∀ (env : WorkerEnv) (st : WorkerState) (inp : IterationInput)
        (tp sl : ℚ),
        once { env with take_profit_pct := tp, stop_loss_pct := sl } st inp
          = once env st inp := by
  refine ⟨hasattr_place_bracket_eq_false b, ?_, ?_⟩
  · intro env st inp call post h
    revert h
    simp only [once, hasattr_place_bracket_eq_false, Bool.and_false, if_false]
    split
    · intro h; simp at h
    · split
      · intro h; simp at h
      · split
        · intro h; simp at h
        · split
          · intro h; simp at h
          · intro h
            simp only [OnceOutcome.submitted.injEq] at h
            exact ⟨_, _, _, _, _, _, h.1.symm⟩
  · intro env st inp tp sl
    rcases env with ⟨t, e, r, as, bm, tp0, sl0, mf, sm, tm, br⟩
    simp only [once, hasattr_place_bracket_eq_false, Bool.and_false,
      Bool.false_eq_true, if_false]

/-- Witness for C10: with bracket mode on and a submission reached, the
call `once` records is the market call. -/
theorem C10_market_only_witness :
    ∃ symbol side qty price stop take,
      (once ⟨"AAPL", 10000, 1 / 100, false, true, 1 / 100, 1 / 200, 60, 1, 2,
          Broker.paper⟩ ⟨none, 0⟩
        ⟨"buy", 100, 2, 50, 9, [], .returned ⟨true, some "paper", some "filled",
          none, none, none⟩⟩).2
        = .submitted (.market symbol side qty price stop take)
            (.tradeNotified ⟨true, some "paper", some "filled", none, none, none⟩) := by
  have h := (C10_market_only Broker.paper).2.1
    ⟨"AAPL", 10000, 1 / 100, false, true, 1 / 100, 1 / 200, 60, 1, 2, Broker.paper⟩
    ⟨none, 0⟩
    ⟨"buy", 100, 2, 50, 9, [], .returned ⟨true, some "paper", some "filled",
      none, none, none⟩⟩
  have hth : throttle ⟨none, 0⟩ 50 "buy" 60 = none := rfl
  have hdir : direction_resolution "buy" 0 false = (true, some "buy", "") := by
    unfold direction_resolution
    rw [if_pos rfl, if_pos (le_refl (0 : ℚ)), if_neg (lt_irrefl (0 : ℚ))]
  have hsz : position_size 10000 (some 2) (some 100) (1 / 100) 1 2 = (50, 98, 104) := by
    norm_num [position_size]
  have hout : (once ⟨"AAPL", 10000, 1 / 100, false, true, 1 / 100, 1 / 200, 60, 1, 2,
      Broker.paper⟩ ⟨none, 0⟩
      ⟨"buy", 100, 2, 50, 9, [], .returned ⟨true, some "paper", some "filled",
        none, none, none⟩⟩).2
      = .submitted (.market "AAPL" "buy" 50 100 98 104)
          (.tradeNotified ⟨true, some "paper", some "filled", none, none, none⟩) := by
    simp only [once, position_qty_safe_eq_zero, open_orders_safe_eq_nil,
      hasattr_place_bracket_eq_false, Bool.and_false, Bool.false_eq_true, if_false,
      hth, hdir, hsz, post_submission, update_action_clock]
    norm_num
  obtain ⟨symbol, side, qty, price, stop, take, hcall⟩ := h _ _ hout
  exact ⟨symbol, side, qty, price, stop, take, by rw [hout, hcall]⟩

end TradingBot
